import Mathlib

/-!
Verification development for the GuajiraWindForecast repository.

The Python sources are shallowly embedded:

* timestamps are modelled as minutes since an epoch (`Nat`); an instant's
  calendar date is its day index `m / 1440` (the `YYYY-MM-DD` rendering is
  order-isomorphic to the day index, so date-string comparisons become `≤`
  on day indices); the hour of day is `m / 60 % 24`;
* a pandas `DataFrame` of weather observations is a `List Row` where the
  meteorological payload of a row is collapsed into one opaque `Int` field
  (floating-point statistics are outside the model and never inspected by
  the properties below);
* HTTP fetches and LLM calls are oracles passed as parameters; a raised
  `requests`/JSON exception is an `Except.error`;
* Python string operations (`str.strip`, `str.lower`, substring `in`,
  `re.search` for the two fixed fence patterns, `unicodedata` NFD folding
  for the character repertoire appearing in this repository) are given
  executable models below.
-/

/-! ### Python string primitives -/

/-- Python `\s` / `str.strip` whitespace (ASCII repertoire). -/
def pyIsSpace (c : Char) : Bool :=
  c = ' ' || c = '\t' || c = '\n' || c = '\r' || c = '\x0b' || c = '\x0c'

/-- Python `str.lower` on one character, for the character repertoire used in
this repository (ASCII plus the accented Latin letters that occur). -/
def pyToLower (c : Char) : Char :=
  if 'A' ≤ c ∧ c ≤ 'Z' then Char.ofNat (c.toNat + 32)
  else if c = 'Á' then 'á'
  else if c = 'É' then 'é'
  else if c = 'Í' then 'í'
  else if c = 'Ó' then 'ó'
  else if c = 'Ú' then 'ú'
  else if c = 'Ñ' then 'ñ'
  else if c = 'Ü' then 'ü'
  else c

/-- Python `str.lower`. -/
def pyLowerStr (s : String) : String := String.mk (s.data.map pyToLower)

/-- Python `str.strip` on a character list. -/
def pyStripL (l : List Char) : List Char :=
  ((l.dropWhile pyIsSpace).reverse.dropWhile pyIsSpace).reverse

/-- Python `str.strip`. -/
def pyStrip (s : String) : String := String.mk (pyStripL s.data)

/-- Python substring test `pat in l` on character lists. -/
def occursL (pat : List Char) : List Char → Bool
  | [] => pat.isPrefixOf []
  | c :: t => pat.isPrefixOf (c :: t) || occursL pat t

/-- Python substring test `pat in s`. -/
def occursStr (pat s : String) : Bool := occursL pat.data s.data

/-- Modelled from `unicodedata.normalize("NFD", ·)` restricted to the accented
Latin characters appearing in this repository: each such character decomposes
into its base letter followed by a combining mark (U+0301 acute, U+0303 tilde,
U+0308 diaeresis); every other character is left alone. -/
def nfd (c : Char) : List Char :=
  if c = 'á' then ['a', Char.ofNat 769]
  else if c = 'é' then ['e', Char.ofNat 769]
  else if c = 'í' then ['i', Char.ofNat 769]
  else if c = 'ó' then ['o', Char.ofNat 769]
  else if c = 'ú' then ['u', Char.ofNat 769]
  else if c = 'Á' then ['A', Char.ofNat 769]
  else if c = 'É' then ['E', Char.ofNat 769]
  else if c = 'Í' then ['I', Char.ofNat 769]
  else if c = 'Ó' then ['O', Char.ofNat 769]
  else if c = 'Ú' then ['U', Char.ofNat 769]
  else if c = 'ñ' then ['n', Char.ofNat 771]
  else if c = 'Ñ' then ['N', Char.ofNat 771]
  else if c = 'ü' then ['u', Char.ofNat 776]
  else if c = 'Ü' then ['U', Char.ofNat 776]
  else [c]

/-- Modelled from `unicodedata.category · == "Mn"`: the combining diacritical
marks block U+0300–U+036F (the only `Mn` characters reachable through `nfd`). -/
def isMn (c : Char) : Bool := 768 ≤ c.toNat && c.toNat ≤ 879

/-- `strip_accents_lower` from `agents/testMultiAgent.py` lines 72–75:
NFD-decompose, drop combining marks, then `.lower().strip()`. -/
def strip_accents_lower (s : String) : String :=
  String.mk (pyStripL (((s.data.map nfd).flatten.filter (fun c => !isMn c)).map pyToLower))

/-- `parse_city` from `src/api/dataAPI.py` line 61:
`city.strip().lower().replace(" ", "_")`. -/
def parse_city (s : String) : String :=
  String.mk (((pyStripL s.data).map pyToLower).map (fun c => if c = ' ' then '_' else c))

/-! ### Time arithmetic (minutes since an epoch) -/

/-- `to_hour_floor` from `dataAPI.py` line 58: zero out minutes and seconds. -/
def hourFloorMin (m : Nat) : Nat := m - m % 60

/-- Day index of an instant (models the `YYYY-MM-DD` date produced by `ymd`). -/
def dayOfMin (m : Nat) : Nat := m / 1440

/-- Hour of day of an instant (models `datetime.hour` / `dt.hour`). -/
def hourOfMin (m : Nat) : Nat := m / 60 % 24

/-! ### Weather data frames -/

/-- One observation row: municipality tag, hour-resolution timestamp (minutes),
and the meteorological payload collapsed into one opaque value.  The derived
pandas columns `hour` and `date` are recomputed by `hourOf` / `dateOf`. -/
structure Row where
  municipio : String
  datetime : Nat
  value : Int
deriving DecidableEq

abbrev DF := List Row

/-- Deduplication key used by `drop_duplicates(subset=["municipio", "datetime"])`. -/
def rowKey (r : Row) : String × Nat := (r.municipio, r.datetime)

/-- Derived `hour` column (`df["datetime"].dt.hour`). -/
def hourOf (r : Row) : Nat := hourOfMin r.datetime

/-- Derived `date` column (`df["datetime"].dt.date`). -/
def dateOf (r : Row) : Nat := dayOfMin r.datetime

/-- Keys of all rows, in order. -/
def keysOf (df : DF) : List (String × Nat) := df.map rowKey

/-- Pandas `drop_duplicates(subset=["municipio", "datetime"], keep="last")`:
a row is kept iff no later row carries the same key; kept rows stay in order. -/
def drop_duplicates_keep_last : DF → DF
  | [] => []
  | r :: t =>
    if ∃ s ∈ t, rowKey s = rowKey r then drop_duplicates_keep_last t
    else r :: drop_duplicates_keep_last t

/-- Comparison used by `sort_values("datetime")`. -/
def rowle (a b : Row) : Prop := a.datetime ≤ b.datetime

instance : DecidableRel rowle := fun a b => Nat.decLe a.datetime b.datetime

instance : IsTotal Row rowle := ⟨fun a b => Nat.le_total a.datetime b.datetime⟩

instance : IsTrans Row rowle := ⟨fun _ _ _ h h' => Nat.le_trans h h'⟩

/-- Pandas `df.sort_values("datetime")` (ordering of rows with equal timestamps
is unspecified by pandas; the properties proved below do not depend on it). -/
def sort_values (df : DF) : DF := List.insertionSort rowle df

/-- Frame persisted by `save_df` from `dataAPI.py` lines 77–86: sort by
`datetime`, then drop duplicate `(municipio, datetime)` keys keeping the last. -/
def save_df (df : DF) : DF := drop_duplicates_keep_last (sort_values df)

/-- Path returned by `save_df` (empty when there is nothing to save); the
calendar-free `csv_path` name for a city. -/
def save_path (df : DF) (city : String) : String :=
  if df = [] then "" else "data/raw/open_meteo_" ++ city ++ ".csv"

/-- `last_timestamp` from `dataAPI.py` lines 108–111: maximum `datetime`. -/
def last_timestamp : DF → Option Nat
  | [] => none
  | r :: t => some (t.foldl (fun m s => max m s.datetime) r.datetime)

/-- Turn a raw fetched hourly series (timestamp, payload) into rows tagged with
a municipality (the `df["municipio"] = …` assignment). -/
def mk_rows (raw : List (Nat × Int)) (municipio : String) : DF :=
  raw.map (fun p => { municipio := municipio, datetime := p.1, value := p.2 })

/-- `filter_hours` from `dataAPI.py` lines 97–100: keep rows whose derived
`hour` lies in the inclusive `[start_hour, end_hour]` window. -/
def filter_hours (df : DF) (start_hour end_hour : Nat) : DF :=
  df.filter (fun r => start_hour ≤ hourOf r ∧ hourOf r ≤ end_hour)

/-- `normalize_df` from `dataAPI.py` lines 88–95: parse timestamps, add derived
columns, and tag rows with `parse_city city`. -/
def normalize_df (raw : List (Nat × Int)) (city : String) : DF :=
  mk_rows raw (parse_city city)

/-! ### Data Refresher (`incremental_pull`, `dataAPI.py` lines 161–243) -/

/-- Municipality coordinate table from `dataAPI.py` lines 30–44 (coordinates
scaled by 10⁴ to integers; they are opaque payload for the properties below). -/
def MUNICIPIOS_api : List (String × Int × Int) :=
  [("riohacha", 115447, -729072), ("maicao", 113776, -722391),
   ("uribia", 117147, -722652), ("manaure", 117794, -724469),
   ("fonseca", 108306, -728517), ("san_juan_del_cesar", 107695, -730030),
   ("albania", 111608, -725922), ("barrancas", 109577, -727947),
   ("distraccion", 108958, -728869), ("el_molino", 106528, -729247),
   ("hatonuevo", 110694, -727647), ("la_jagua_del_pilar", 105108, -730714),
   ("mingueo", 112000, -733667)]

/-- Result dictionary of `incremental_pull` (the float statistics block is
outside the model); `merged` is the frame as persisted by `save_df` — which
also mutates the in-memory frame in place. -/
structure PullOutcome where
  city : String
  new_rows : Int
  file : String
  merged : DF
  success : Bool
deriving DecidableEq

/-- Fetch start date computed at `dataAPI.py` lines 179–183: the date of
(now − 7 days) when there is no prior data, else the date of one hour after
the latest stored timestamp. -/
def pull_start_date (existing : DF) (now : Nat) : Nat :=
  match last_timestamp existing with
  | none => dayOfMin (now - 7 * 1440)
  | some t => dayOfMin (t + 60)

/-- Guard of `dataAPI.py` line 190: the archive endpoint is queried iff
`start_date <= yesterday`. -/
def archive_requested (existing : DF) (now : Nat) : Bool :=
  decide (pull_start_date existing now ≤ dayOfMin (now - 1440))

/-- `incremental_pull` from `dataAPI.py` lines 161–243.  `fetchArchive` and
`fetchForecast` are the two Open-Meteo endpoints (`Except.error` models a
raised network/JSON exception, which the source does not catch; an `ok []`
models a well-formed response without hourly data).  The in-progress-hour
comment of line 177 is a claim about this code, not part of it. -/
def incremental_pull (city : String) (start_hour end_hour now : Nat)
    (existing : DF)
    (fetchArchive : Nat → Nat → Except Unit (List (Nat × Int)))
    (fetchForecast : Except Unit (List (Nat × Int))) :
    Except Unit PullOutcome :=
  let city_norm := parse_city city
  let target_until := hourFloorMin now
  let start_date := pull_start_date existing now
  let end_date := dayOfMin target_until
  let yesterday := dayOfMin (now - 1440)
  match (if start_date ≤ yesterday
         then fetchArchive start_date (min yesterday end_date)
         else Except.ok []) with
  | .error e => .error e
  | .ok archive_df =>
    match fetchForecast with
    | .error e => .error e
    | .ok forecast_df =>
      let df_all := archive_df ++ forecast_df
      if df_all = [] then
        .ok { city := city_norm, new_rows := 0,
              file := save_path existing city_norm,
              merged := save_df existing, success := true }
      else
        let df_rng := df_all.filter
          (fun p => start_date * 1440 ≤ p.1 ∧ p.1 ≤ target_until)
        let df_f := filter_hours (normalize_df df_rng city_norm)
          start_hour end_hour
        let merged := drop_duplicates_keep_last (existing ++ df_f)
        .ok { city := city_norm,
              new_rows := (merged.length : Int) - (existing.length : Int),
              file := save_path merged city_norm,
              merged := save_df merged, success := true }

/-- Per-city entry of `update_hourly` (`dataAPI.py` lines 371–387): unknown
municipalities and exceptions raised by `incremental_pull` both degrade to a
failure entry; the endpoint itself never propagates the exception. -/
structure UpdateEntry where
  city : String
  success : Bool
deriving DecidableEq

/-- One loop iteration of `update_hourly` for a given city. -/
def update_hourly_city (city : String) (start_hour end_hour now : Nat)
    (existing : DF)
    (fetchArchive : Nat → Nat → Except Unit (List (Nat × Int)))
    (fetchForecast : Except Unit (List (Nat × Int))) : UpdateEntry :=
  let c := parse_city city
  if (MUNICIPIOS_api.find? (fun p => decide (p.1 = c))).isNone then
    { city := c, success := false }
  else
    match incremental_pull c start_hour end_hour now existing
        fetchArchive fetchForecast with
    | .ok r => { city := r.city, success := r.success }
    | .error _ => { city := c, success := false }

/-! ### Climate data downloader (`tests/dataDownload.py`) -/

/-- Downloader configuration (`ClimateDataDownloader.__init__`): date range as
day indices plus the inclusive hour-of-day window. -/
structure ClimateDataDownloader where
  start_date : Nat
  end_date : Nat
  start_hour : Nat
  end_hour : Nat
deriving DecidableEq

/-- Predefined coordinates from `dataDownload.py` lines 49–63; note the keys
are capitalized with underscores, unlike the lowercase router names. -/
def downloader_municipios : List (String × Int × Int) :=
  [("Riohacha", 115447, -729072), ("Maicao", 113776, -722391),
   ("Uribia", 117147, -722652), ("Manaure", 117794, -724469),
   ("Fonseca", 108306, -728517), ("San_Juan_del_Cesar", 107695, -730030),
   ("Albania", 111608, -725922), ("Barrancas", 109577, -727947),
   ("Distraccion", 108958, -728869), ("El_Molino", 106528, -729247),
   ("Hatonuevo", 110694, -727647), ("La_Jagua_del_Pilar", 105108, -730714),
   ("Mingueo", 112000, -733667)]

/-- `fetch_wind_data_only` from `dataDownload.py` lines 122–170: tag rows with
the municipality as passed, filter by the hour window; any raised exception is
caught and degrades to an empty frame. -/
def fetch_wind_data_only (d : ClimateDataDownloader) (municipio : String)
    (resp : Except Unit (List (Nat × Int))) : DF :=
  match resp with
  | .error _ => []
  | .ok raw => filter_hours (mk_rows raw municipio) d.start_hour d.end_hour

/-- `save_wind_data` from `dataDownload.py` lines 172–191 (the `YYYY-MM-DD`
rendering of the two dates is abstracted to their day indices). -/
def save_wind_data (d : ClimateDataDownloader) (df : DF) (municipio : String) :
    String :=
  if df = [] then ""
  else "data/raw/wind_data_" ++ pyLowerStr municipio ++ "_"
    ++ toString d.start_date ++ "_" ++ toString d.end_date ++ ".csv"

/-- Values stored in the Python result dictionaries (`vStats` stands for the
floating-point statistics block, which no modeled code path inspects). -/
inductive DVal where
  | vDF (df : DF)
  | vStr (s : String)
  | vStats
  | vBool (b : Bool)
deriving DecidableEq

/-- Python dictionary with string keys, as returned by `download_single_city`. -/
abbrev PyDict := List (String × DVal)

/-- Python `dict.get` (returns `None` for a missing key). -/
def dictGet (d : PyDict) (k : String) : Option DVal :=
  (d.find? (fun p => decide (p.1 = k))).map (fun p => p.2)

/-- Python truthiness of a `dict.get` result as used by the handlers (`None`
and the empty string are falsy; `vDF`/`vStats` are never tested there). -/
def truthy : Option DVal → Bool
  | none => false
  | some (.vBool b) => b
  | some (.vStr s) => decide (s ≠ "")
  | some (.vDF _) => true
  | some .vStats => true

/-- String payload of a `dict.get` result (only applied to string values). -/
def dvalStr : Option DVal → String
  | some (.vStr s) => s
  | _ => ""

/-- `download_single_city` from `dataDownload.py` lines 193–265.  With no
explicit coordinates the city is looked up (case-sensitively) among the
predefined `downloader_municipios`; on a miss, the early 3-key failure dict of
line 219 is returned.  A successful download stores the saved path under the
key `"filepath"`. -/
def download_single_city (d : ClimateDataDownloader) (city_name : String)
    (coords : Option (Int × Int)) (resp : Except Unit (List (Nat × Int))) :
    PyDict :=
  let coordsFound : Option (Int × Int) :=
    match coords with
    | some c => some c
    | none =>
      match downloader_municipios.find? (fun p => decide (p.1 = city_name)) with
      | some p => some (p.2.1, p.2.2)
      | none => none
  match coordsFound with
  | none => [("data", .vDF []), ("filepath", .vStr ""), ("success", .vBool false)]
  | some _ =>
    let df := fetch_wind_data_only d city_name resp
    if df ≠ [] then
      [("data", .vDF df),
       ("filepath", .vStr (save_wind_data d df city_name)),
       ("stats", .vStats), ("success", .vBool true)]
    else
      [("data", .vDF []), ("filepath", .vStr ""), ("stats", .vStats),
       ("success", .vBool false)]

/-! ### Telegram handlers (`agents/telegram_handlers.py`) -/

/-- Municipality list from `src/prompts/constants.py` (lowercase, spaces). -/
def MUNICIPIOS : List String :=
  ["riohacha", "maicao", "uribia", "manaure", "fonseca",
   "san juan del cesar", "albania", "barrancas", "distraccion",
   "el molino", "hatonuevo", "la jagua del pilar", "mingueo"]

/-- Keyword list of `PlotHandler.is_plot_request` (lines 82–85, verbatim,
including the duplicated `"graficar"`). -/
def plot_keywords : List String :=
  ["gráfica", "grafica", "gráfico", "grafico", "plot", "chart",
   "diagrama", "histograma", "boxplot", "scatter", "línea", "linea",
   "barras", "pie", "visualizar", "visualiza", "mostrar", "ver", "dibujar",
   "graficar", "graficar", "plotear", "diagramar"]

/-- `PlotHandler.is_plot_request` (lines 80–86). -/
def is_plot_request (text : String) : Bool :=
  plot_keywords.any (fun kw => occursStr kw (pyLowerStr text))

/-- Closing fence searched by both `extract_code` patterns. -/
def fenceL : List Char := "```".data

/-- Opening tag of the first `extract_code` pattern. -/
def pyTagL : List Char := "```python".data

/-- Index of the first occurrence of `pat` (length of the list if absent). -/
def firstOccIdx (pat : List Char) : List Char → Nat
  | [] => 0
  | c :: t => if pat.isPrefixOf (c :: t) then 0 else firstOccIdx pat t + 1

/-- Leftmost match of one fenced-block pattern (the tag, then the regex part
written as backslash-s-star, lazy dot-star group, backslash-s-star, closing
fence) — returning the matched group already `.strip()`-ed.  A start position
matches iff the tag occurs there and a closing fence occurs later; the
greedy/lazy interplay makes the stripped group equal to the stripped text
between the tag and the first subsequent fence. -/
def scanFence (tag : List Char) : List Char → Option (List Char)
  | [] => none
  | c :: t =>
    if tag.isPrefixOf (c :: t) ∧ occursL fenceL ((c :: t).drop tag.length) = true
    then
      some (pyStripL (((c :: t).drop tag.length).take
        (firstOccIdx fenceL ((c :: t).drop tag.length))))
    else scanFence tag t

/-- Library markers tested by `extract_code` line 94. -/
def hasLib (code : List Char) : Bool :=
  ["plt.", "sns.", "matplotlib", "seaborn"].any (fun lib => occursL lib.data code)

/-- `PlotHandler.extract_code` (lines 88–96): try the ```python-tagged pattern,
then the untagged one; return the stripped group when it references a plotting
library, else the empty string. -/
def extract_code (response : String) : String :=
  match scanFence pyTagL response.data with
  | some code =>
    if hasLib code then String.mk code else
      match scanFence fenceL response.data with
      | some code2 => if hasLib code2 then String.mk code2 else ""
      | none => ""
  | none =>
    match scanFence fenceL response.data with
    | some code2 => if hasLib code2 then String.mk code2 else ""
    | none => ""

/-- Per-user session state (`UserState`, lines 47–54; `last_activity` is a
wall-clock field with no behavioral role and is omitted). -/
structure UserState where
  current_municipio : Option String
  current_data_summary : Option String
  current_file_path : Option String
  current_dataframe : Option DF
  pandas_agent : Option Unit
deriving DecidableEq

/-- Fresh session (`UserState.__init__`). -/
def initUserState : UserState :=
  { current_municipio := none, current_data_summary := none,
    current_file_path := none, current_dataframe := none, pandas_agent := none }

/-- `MessageHandler._reset_user_state` (lines 451–457). -/
def reset_user_state (st : UserState) : UserState :=
  { st with
    current_municipio := none,
    current_data_summary := none,
    current_file_path := none,
    current_dataframe := none,
    pandas_agent := none }

/-- `BaseHandler.create_pandas_agent_for_user` (lines 153–167): builds the
agent when a dataframe is loaded and no agent exists yet. -/
def create_pandas_agent_for_user (st : UserState) : UserState :=
  if st.current_dataframe.isSome ∧ st.pandas_agent = none then
    { st with pandas_agent := some () }
  else st

/-- External world of one message turn: clock, the router LLM's raw reply, the
downloader's HTTP response, and the filesystem reads (`pd.read_csv`, where
`none` models a raised exception, and `read_climate_data`'s summary). -/
structure Env where
  now : Nat
  routerReply : String
  fetchWind : Except Unit (List (Nat × Int))
  csvOf : String → Option DF
  summaryOf : String → String

/-- Router-reply normalization of `_handle_router_request` line 461–465:
`.strip().lower()` only. -/
def telegram_route (raw : String) : String := pyLowerStr (pyStrip raw)

/-- Download window computed at lines 473–477 (and identically in
`municipio_callback`): end = now, start = now − 365 days, hour window taken
from the clock hours of those two instants. -/
def downloader_window (now : Nat) : ClimateDataDownloader :=
  { start_date := dayOfMin (now - 365 * 1440), end_date := dayOfMin now,
    start_hour := hourOfMin (now - 365 * 1440), end_hour := hourOfMin now }

/-- Observable outcome of the router path (lines 459–510). -/
inductive RouterOutcome where
  | subagentCalled (municipio : String)
  | subagentMissing (municipio : String)
  | botRelay (reply : String)
deriving DecidableEq

/-- Guarded session population of lines 486–500: requires a truthy `success`
and a truthy `file_path` entry in the download result; on `pd.read_csv`
failure the dataframe/agent fields are left untouched. -/
def populate_from_download (env : Env) (st : UserState) (result : PyDict) :
    UserState :=
  if result ≠ [] ∧ truthy (dictGet result "success") = true
      ∧ truthy (dictGet result "file_path") = true then
    let fp := dvalStr (dictGet result "file_path")
    let st := { st with
                current_file_path := some fp,
                current_data_summary := some (env.summaryOf fp) }
    match env.csvOf fp with
    | some df => create_pandas_agent_for_user { st with current_dataframe := some df }
    | none => st
  else st

/-- `MessageHandler._handle_router_request` (lines 459–510).  The user question
is only interpolated into prompt text, so it does not appear here. -/
def handle_router_request (env : Env) (st : UserState) :
    UserState × RouterOutcome :=
  let route := telegram_route env.routerReply
  if route ∈ MUNICIPIOS then
    let st1 := { st with current_municipio := some route }
    let result := download_single_city (downloader_window env.now) route none
      env.fetchWind
    let st2 := populate_from_download env st1 result
    if route ∈ MUNICIPIOS then (st2, .subagentCalled route)
    else (st2, .subagentMissing route)
  else (st, .botRelay ("🤖 Bot: " ++ route))

/-- Observable outcome of `_handle_municipio_request` (lines 512–538). -/
inductive MuniOutcome where
  | plotFlow
  | pandasFlow
  | subagentCalled (municipio : String)
  | subagentMissing
deriving DecidableEq

/-- `MessageHandler._handle_municipio_request` (lines 512–538). -/
def handle_municipio_request (st : UserState) (user_q : String) :
    UserState × MuniOutcome :=
  if st.current_dataframe.isSome ∧ st.pandas_agent.isSome then
    if is_plot_request user_q then (st, .plotFlow) else (st, .pandasFlow)
  else
    match st.current_municipio with
    | some cur => if cur ∈ MUNICIPIOS then (st, .subagentCalled cur)
                  else (st, .subagentMissing)
    | none => (st, .subagentMissing)

/-- Municipality-switch detector of `handle_message` lines 430–433: some other
known municipality name is a lowercase substring of the lowercased message. -/
def mentions_other (cur user_q : String) : Bool :=
  MUNICIPIOS.any (fun m =>
    !(pyLowerStr m == pyLowerStr cur)
      && occursStr (pyLowerStr m) (pyLowerStr user_q))

/-- Observable outcome of one `handle_message` turn. -/
inductive Outcome where
  | ignored
  | switchPrompt (reply : String)
  | routerHandled (o : RouterOutcome)
  | municipioHandled (o : MuniOutcome)
deriving DecidableEq

/-- `MessageHandler.handle_message` (lines 416–449): strip the text, detect a
municipality switch, else dispatch on whether a municipality is bound. -/
def handle_message (env : Env) (st : UserState) (text : String) :
    UserState × Outcome :=
  let user_q := pyStrip text
  if user_q = "" then (st, .ignored)
  else
    if (match st.current_municipio with
        | some cur => mentions_other cur user_q
        | none => false) = true then
      (reset_user_state st,
       .switchPrompt "🔄 Detectado cambio de municipio. Redirigiendo al orquestador...")
    else
      match st.current_municipio with
      | none =>
        let r := handle_router_request env st
        (r.1, .routerHandled r.2)
      | some _ =>
        let r := handle_municipio_request st user_q
        (r.1, .municipioHandled r.2)

/-! ### CLI multiagent (`agents/testMultiAgent.py`) -/

/-- Router-decision shape from the spec (`RouterDecision`). -/
inductive RouterDecision where
  | municipality (id : String)
  | general
  | fallbackPrompt
deriving DecidableEq

/-- Normalization applied to the router reply in `main` (lines 253–259):
`.strip().lower()` followed by `strip_accents_lower`. -/
def cli_route_norm (raw : String) : String :=
  strip_accents_lower (pyLowerStr (pyStrip raw))

/-- Classification of the router reply in `main` (lines 262–295): municipality
via accent-folded comparison (remapped to the exact listed name), then the
literal `"general"`, then the fallback prompt. -/
def cli_classify (raw : String) : RouterDecision :=
  let route_norm := cli_route_norm raw
  if route_norm ∈ MUNICIPIOS.map strip_accents_lower then
    match MUNICIPIOS.find? (fun m => decide (strip_accents_lower m = route_norm)) with
    | some m => .municipality m
    | none => .fallbackPrompt
  else if route_norm = "general" then .general
  else .fallbackPrompt

/-- Python `sep.join`. -/
def join_sep (sep : String) : List String → String
  | [] => ""
  | [x] => x
  | x :: xs => x ++ sep ++ join_sep sep xs

/-- Reply printed by the CLI `"general"` branch (lines 278–285): the full
municipality listing plus the first five as examples. -/
def cli_general_reply : String :=
  "¿Sobre cuál de estos municipios deseas la información climática?\n - "
    ++ join_sep "\n - " MUNICIPIOS
    ++ "\nEjemplos: " ++ join_sep ", " (MUNICIPIOS.take 5)

/-! ### Specification-side helpers -/

/-- The unique row carrying a given key, looked up front to back. -/
def findKey (df : DF) (k : String × Nat) : Option Row :=
  df.find? (fun r => decide (rowKey r = k))

/-- Last row of the frame carrying a given key (the value `keep="last"` keeps). -/
def lastWithKey (df : DF) (k : String × Nat) : Option Row :=
  (df.filter (fun r => decide (rowKey r = k))).getLast?

/-- Backtick character (spelled by code point). -/
def backtick : Char := Char.ofNat 96

/-! ### Lemmas about `drop_duplicates_keep_last` and `save_df` -/

theorem ddkl_sublist (l : DF) : List.Sublist (drop_duplicates_keep_last l) l := by
  induction l with
  | nil => simp [drop_duplicates_keep_last]
  | cons r t ih =>
    rw [drop_duplicates_keep_last]
    split
    · exact ih.cons r
    · exact ih.cons₂ r

theorem keysOf_cons (r : Row) (t : DF) : keysOf (r :: t) = rowKey r :: keysOf t := rfl

theorem keysOf_append (a b : DF) : keysOf (a ++ b) = keysOf a ++ keysOf b := by
  simp [keysOf]

theorem mem_keysOf_iff {k : String × Nat} {l : DF} :
    k ∈ keysOf l ↔ ∃ r ∈ l, rowKey r = k := by
  simp [keysOf, List.mem_map]

theorem mem_keysOf_ddkl {k : String × Nat} {l : DF} :
    k ∈ keysOf (drop_duplicates_keep_last l) ↔ k ∈ keysOf l := by
  induction l with
  | nil => simp [drop_duplicates_keep_last]
  | cons r t ih =>
    rw [drop_duplicates_keep_last]
    split
    · rename_i h
      obtain ⟨s, hs, he⟩ := h
      have hr : rowKey r ∈ keysOf t := he ▸ List.mem_map_of_mem rowKey hs
      rw [keysOf_cons, List.mem_cons, ih]
      constructor
      · exact Or.inr
      · rintro (rfl | hk)
        · exact hr
        · exact hk
    · rw [keysOf_cons, keysOf_cons, List.mem_cons, List.mem_cons, ih]

theorem nodup_keysOf_ddkl (l : DF) :
    (keysOf (drop_duplicates_keep_last l)).Nodup := by
  induction l with
  | nil => simp [drop_duplicates_keep_last, keysOf]
  | cons r t ih =>
    rw [drop_duplicates_keep_last]
    split
    · exact ih
    · rename_i h
      rw [keysOf_cons, List.nodup_cons]
      refine ⟨fun hmem => h ?_, ih⟩
      obtain ⟨s, hs, he⟩ := mem_keysOf_iff.mp (mem_keysOf_ddkl.mp hmem)
      exact ⟨s, hs, he⟩

theorem ddkl_eq_self {l : DF} (h : (keysOf l).Nodup) :
    drop_duplicates_keep_last l = l := by
  induction l with
  | nil => rfl
  | cons r t ih =>
    rw [keysOf_cons, List.nodup_cons] at h
    rw [drop_duplicates_keep_last, if_neg, ih h.2]
    rintro ⟨s, hs, he⟩
    exact h.1 (he ▸ List.mem_map_of_mem rowKey hs)

theorem length_ddkl (l : DF) :
    (drop_duplicates_keep_last l).length = (keysOf l).toFinset.card := by
  induction l with
  | nil => simp [drop_duplicates_keep_last, keysOf]
  | cons r t ih =>
    rw [drop_duplicates_keep_last]
    split
    · rename_i h
      obtain ⟨s, hs, he⟩ := h
      have hr : rowKey r ∈ (keysOf t).toFinset :=
        List.mem_toFinset.mpr (he ▸ List.mem_map_of_mem rowKey hs)
      rw [ih, keysOf_cons, List.toFinset_cons, Finset.insert_eq_self.mpr hr]
    · rename_i h
      have hr : rowKey r ∉ (keysOf t).toFinset := by
        intro hmem
        obtain ⟨s, hs, he⟩ := mem_keysOf_iff.mp (List.mem_toFinset.mp hmem)
        exact h ⟨s, hs, he⟩
      rw [List.length_cons, ih, keysOf_cons, List.toFinset_cons,
        Finset.card_insert_of_not_mem hr]

theorem findKey_ddkl (l : DF) (k : String × Nat) :
    findKey (drop_duplicates_keep_last l) k = lastWithKey l k := by
  induction l with
  | nil => rfl
  | cons r t ih =>
    rw [drop_duplicates_keep_last]
    by_cases hk : rowKey r = k
    · have hpr : (fun s => decide (rowKey s = k)) r = true := by simp [hk]
      split
      · rename_i h
        obtain ⟨s, hs, he⟩ := h
        rw [ih]
        unfold lastWithKey
        rw [@List.filter_cons_of_pos Row (fun s => decide (rowKey s = k)) r t hpr]
        have hmem : s ∈ t.filter (fun s => decide (rowKey s = k)) :=
          List.mem_filter.mpr ⟨hs, by simp [he, hk]⟩
        obtain ⟨b, l', hbl⟩ :=
          List.exists_cons_of_ne_nil (List.ne_nil_of_mem hmem)
        rw [hbl, List.getLast?_cons_cons]
      · rename_i h
        have hfil : t.filter (fun s => decide (rowKey s = k)) = [] := by
          rw [List.filter_eq_nil_iff]
          intro s hs hsk
          apply h
          refine ⟨s, hs, ?_⟩
          simp at hsk
          rw [hsk, hk]
        unfold findKey lastWithKey
        rw [@List.find?_cons_of_pos Row (fun s => decide (rowKey s = k)) r
            (drop_duplicates_keep_last t) hpr,
          @List.filter_cons_of_pos Row (fun s => decide (rowKey s = k)) r t hpr,
          hfil]
        rfl
    · have hpr : ¬ (fun s => decide (rowKey s = k)) r = true := by simp [hk]
      split
      · rw [ih]
        unfold lastWithKey
        rw [@List.filter_cons_of_neg Row (fun s => decide (rowKey s = k)) r t hpr]
      · unfold findKey lastWithKey at ih ⊢
        rw [@List.find?_cons_of_neg Row (fun s => decide (rowKey s = k)) r
            (drop_duplicates_keep_last t) hpr,
          @List.filter_cons_of_neg Row (fun s => decide (rowKey s = k)) r t hpr]
        exact ih

theorem findKey_eq_some_iff {l : DF} (h : (keysOf l).Nodup) {k : String × Nat}
    {r : Row} : findKey l k = some r ↔ r ∈ l ∧ rowKey r = k := by
  induction l with
  | nil => simp [findKey]
  | cons a t ih =>
    rw [keysOf_cons, List.nodup_cons] at h
    unfold findKey at ih ⊢
    by_cases ha : rowKey a = k
    · have hpr : (fun s => decide (rowKey s = k)) a = true := by simp [ha]
      rw [@List.find?_cons_of_pos Row (fun s => decide (rowKey s = k)) a t hpr]
      constructor
      · intro he
        obtain rfl : a = r := Option.some.inj he
        exact ⟨List.mem_cons_self _ _, ha⟩
      · rintro ⟨hmem, hrk⟩
        rcases List.mem_cons.mp hmem with rfl | hmem
        · rfl
        · have hink : rowKey a ∈ keysOf t := by
            rw [ha, ← hrk]
            exact List.mem_map_of_mem rowKey hmem
          exact absurd hink h.1
    · have hpr : ¬ (fun s => decide (rowKey s = k)) a = true := by simp [ha]
      rw [@List.find?_cons_of_neg Row (fun s => decide (rowKey s = k)) a t hpr,
        ih h.2]
      constructor
      · rintro ⟨hmem, hrk⟩
        exact ⟨List.mem_cons_of_mem a hmem, hrk⟩
      · rintro ⟨hmem, hrk⟩
        rcases List.mem_cons.mp hmem with rfl | hmem
        · exact absurd hrk ha
        · exact ⟨hmem, hrk⟩

theorem findKey_perm {l l' : DF} (hp : l.Perm l') (h : (keysOf l).Nodup)
    (k : String × Nat) : findKey l k = findKey l' k := by
  have h' : (keysOf l').Nodup := ((hp.map rowKey).nodup_iff).mp h
  cases hf : findKey l k with
  | none =>
    cases hf' : findKey l' k with
    | none => rfl
    | some r =>
      obtain ⟨hmem, hrk⟩ := (findKey_eq_some_iff h').mp hf'
      have : findKey l k = some r :=
        (findKey_eq_some_iff h).mpr ⟨hp.mem_iff.mpr hmem, hrk⟩
      rw [hf] at this
      exact absurd this (by simp)
  | some r =>
    obtain ⟨hmem, hrk⟩ := (findKey_eq_some_iff h).mp hf
    exact ((findKey_eq_some_iff h').mpr ⟨hp.mem_iff.mp hmem, hrk⟩).symm

theorem perm_sort_values (l : DF) : (sort_values l).Perm l :=
  List.perm_insertionSort rowle l

theorem pairwise_sort_values (l : DF) : (sort_values l).Pairwise rowle :=
  List.sorted_insertionSort rowle l

theorem save_df_pairwise (l : DF) : (save_df l).Pairwise rowle :=
  (pairwise_sort_values l).sublist (ddkl_sublist (sort_values l))

theorem nodup_keysOf_save_df (l : DF) : (keysOf (save_df l)).Nodup :=
  nodup_keysOf_ddkl (sort_values l)

theorem mem_keysOf_save_df {k : String × Nat} {l : DF} :
    k ∈ keysOf (save_df l) ↔ k ∈ keysOf l := by
  unfold save_df
  rw [mem_keysOf_ddkl]
  exact ((perm_sort_values l).map rowKey).mem_iff

theorem save_df_eq_of_clean {l : DF} (hnd : (keysOf l).Nodup)
    (hs : l.Pairwise rowle) : save_df l = l := by
  unfold save_df sort_values
  rw [List.Sorted.insertionSort_eq hs, ddkl_eq_self hnd]

theorem lastWithKey_append_of_mem {e f : DF} {k : String × Nat}
    (hk : k ∈ keysOf f) : lastWithKey (e ++ f) k = lastWithKey f k := by
  unfold lastWithKey
  obtain ⟨s, hs, he⟩ := mem_keysOf_iff.mp hk
  have hmem : s ∈ f.filter (fun r => decide (rowKey r = k)) :=
    List.mem_filter.mpr ⟨hs, by simp [he]⟩
  rw [List.filter_append,
    List.getLast?_append_of_ne_nil _ (List.ne_nil_of_mem hmem)]

/-! ### Claim C2 -/

/-- C2: after every refresh-and-persist operation (the `incremental_pull`
merge of lines 211–216 followed by `save_df`), the persisted dataset has
exactly one row per (municipality, timestamp) key — its key set being exactly
the keys of the prior dataset and the fetch —, is sorted by timestamp
ascending, keeps the most recently fetched value for every key present in both
the prior dataset and the fetch, and merging the same fetch twice produces
zero new rows. -/
theorem c2_merge_persist_invariants (existing fetched : DF) :
    (keysOf (save_df (drop_duplicates_keep_last (existing ++ fetched)))).Nodup
    ∧ (∀ k, k ∈ keysOf (save_df (drop_duplicates_keep_last (existing ++ fetched)))
        ↔ k ∈ keysOf (existing ++ fetched))
    ∧ (save_df (drop_duplicates_keep_last (existing ++ fetched))).Pairwise rowle
    ∧ (∀ k, k ∈ keysOf existing → k ∈ keysOf fetched →
        findKey (save_df (drop_duplicates_keep_last (existing ++ fetched))) k
          = lastWithKey fetched k)
    ∧ ((drop_duplicates_keep_last
          (drop_duplicates_keep_last (existing ++ fetched) ++ fetched)).length
        = (drop_duplicates_keep_last (existing ++ fetched)).length) := by
  refine ⟨nodup_keysOf_save_df _, ?_, save_df_pairwise _, ?_, ?_⟩
  · intro k
    rw [mem_keysOf_save_df, mem_keysOf_ddkl]
  · intro k hke hkf
    have hnd : (keysOf (drop_duplicates_keep_last (existing ++ fetched))).Nodup :=
      nodup_keysOf_ddkl _
    have hperm := perm_sort_values (drop_duplicates_keep_last (existing ++ fetched))
    have hnd' : (keysOf (sort_values
        (drop_duplicates_keep_last (existing ++ fetched)))).Nodup :=
      ((hperm.map rowKey).nodup_iff).mpr hnd
    have hsave : save_df (drop_duplicates_keep_last (existing ++ fetched))
        = sort_values (drop_duplicates_keep_last (existing ++ fetched)) := by
      unfold save_df
      exact ddkl_eq_self hnd'
    rw [hsave, findKey_perm hperm hnd' k, findKey_ddkl,
      lastWithKey_append_of_mem hkf]
  · rw [length_ddkl, length_ddkl]
    congr 1
    apply Finset.ext
    intro k
    simp only [keysOf_append, List.toFinset_append, Finset.mem_union,
      List.mem_toFinset]
    rw [mem_keysOf_ddkl]
    simp only [keysOf_append, List.mem_append]
    tauto

/-- Witness for C2 at a concrete overlapping merge. -/
theorem c2_witness :
    (("riohacha", 60) ∈ keysOf [{ municipio := "riohacha", datetime := 60, value := 1 }])
    ∧ (("riohacha", 60) ∈ keysOf [{ municipio := "riohacha", datetime := 60, value := 2 },
        { municipio := "riohacha", datetime := 120, value := 3 }])
    ∧ findKey (save_df (drop_duplicates_keep_last
        ([{ municipio := "riohacha", datetime := 60, value := 1 }]
          ++ [{ municipio := "riohacha", datetime := 60, value := 2 },
              { municipio := "riohacha", datetime := 120, value := 3 }])))
        ("riohacha", 60)
      = lastWithKey [{ municipio := "riohacha", datetime := 60, value := 2 },
          { municipio := "riohacha", datetime := 120, value := 3 }] ("riohacha", 60) :=
  ⟨by decide, by decide,
    (c2_merge_persist_invariants
      [{ municipio := "riohacha", datetime := 60, value := 1 }]
      [{ municipio := "riohacha", datetime := 60, value := 2 },
       { municipio := "riohacha", datetime := 120, value := 3 }]).2.2.2.1
      ("riohacha", 60) (by decide) (by decide)⟩

/-! ### Claim C3 -/

/-- C3 counterexample: a raised forecast-fetch exception propagates out of
`incremental_pull` (the source has no try/except around the fetches), so the
refresh operation does raise past its boundary, contradicting the claim.  At
this concrete input the archive fetch succeeds and the forecast fetch raises. -/
theorem c3_counterexample :
    incremental_pull "riohacha" 6 18 28800877 []
      (fun _ _ => Except.ok []) (Except.error ())
      = Except.error () := by
  rfl

/-- C3 (amended): a well-formed fetch response with no rows degrades to the
unchanged prior dataset with zero new rows (the unchanged frame being literal
when the prior dataset is sorted and deduplicated), but raised fetch
exceptions propagate out of `incremental_pull`; they are caught one level up
by `update_hourly`, whose per-city entry reports the failure instead of
crashing. -/
theorem c3_amended (city : String) (sh eh now : Nat) (existing : DF)
    (fa : Nat → Nat → Except Unit (List (Nat × Int))) (e : Unit) :
    ((∀ a b, fa a b = Except.ok []) →
      incremental_pull city sh eh now existing fa (Except.ok [])
        = Except.ok {
            city := parse_city city,
            new_rows := 0,
            file := save_path existing (parse_city city),
            merged := save_df existing,
            success := true })
    ∧ ((keysOf existing).Nodup → existing.Pairwise rowle →
        save_df existing = existing)
    ∧ ((∀ a b, fa a b = Except.ok []) →
        incremental_pull city sh eh now existing fa (Except.error e)
          = Except.error e)
    ∧ (∀ ff, incremental_pull (parse_city city) sh eh now existing fa ff
          = Except.error e →
        update_hourly_city city sh eh now existing fa ff
          = { city := parse_city city, success := false }) := by
  have harch : ∀ h : ∀ a b, fa a b = Except.ok [],
      (if pull_start_date existing now ≤ dayOfMin (now - 1440)
       then fa (pull_start_date existing now)
         (min (dayOfMin (now - 1440)) (dayOfMin (hourFloorMin now)))
       else Except.ok []) = Except.ok [] := by
    intro h
    split
    · exact h _ _
    · rfl
  refine ⟨?_, fun hnd hs => save_df_eq_of_clean hnd hs, ?_, ?_⟩
  · intro hfa
    simp only [incremental_pull]
    rw [harch hfa]
    rfl
  · intro hfa
    simp only [incremental_pull]
    rw [harch hfa]
  · intro ff hpull
    simp only [update_hourly_city]
    split
    · rfl
    · rw [hpull]

/-- Witness for C3 (amended) at concrete inputs: an empty fetch yields a
no-progress result, and a raising fetch yields a caught per-city failure. -/
theorem c3_witness :
    incremental_pull "riohacha" 6 18 28800877 []
        (fun _ _ => Except.ok []) (Except.ok [])
      = Except.ok {
          city := "riohacha",
          new_rows := 0,
          file := "",
          merged := [],
          success := true }
    ∧ update_hourly_city "riohacha" 6 18 28800877 []
        (fun _ _ => Except.ok []) (Except.error ())
      = { city := "riohacha", success := false } :=
  ⟨((c3_amended "riohacha" 6 18 28800877 [] (fun _ _ => Except.ok []) ()).1
      (fun _ _ => rfl)).trans rfl,
   ((c3_amended "riohacha" 6 18 28800877 [] (fun _ _ => Except.ok []) ()).2.2.2
      (Except.error ()) rfl).trans rfl⟩

/-! ### Claim C4 -/

theorem mem_of_mem_save_df {r : Row} {l : DF} (h : r ∈ save_df l) : r ∈ l :=
  (perm_sort_values l).mem_iff.mp ((ddkl_sublist (sort_values l)).subset h)

/-- C4 counterexample: at `now` = day 20000, 14:37, with prior data up to
10:00 of the same day, the fetched row stamped 14:00 — the floor of the
in-progress hour — appears in the merged result (the mask of line 206 is an
inclusive `≤ target_until`), and the fetched 06:00 row, which lies before one
hour after the latest prior timestamp, is refetched and overwrites the stored
value (the mask runs from midnight of the start date).  Both contradict the
claim's fetch-window description. -/
theorem c4_counterexample :
    hourFloorMin 28800877 = 28800840
    ∧ 28800877 % 60 ≠ 0
    ∧ pull_start_date
        [{ municipio := "riohacha", datetime := 28800360, value := 5 },
         { municipio := "riohacha", datetime := 28800600, value := 6 }]
        28800877 = 20000
    ∧ 28800360 < 28800600 + 60
    ∧ incremental_pull "riohacha" 0 23 28800877
        [{ municipio := "riohacha", datetime := 28800360, value := 5 },
         { municipio := "riohacha", datetime := 28800600, value := 6 }]
        (fun _ _ => Except.ok [])
        (Except.ok [(28800360, 99), (28800840, 77)])
      = Except.ok {
          city := "riohacha",
          new_rows := 1,
          file := "data/raw/open_meteo_riohacha.csv",
          merged := [{ municipio := "riohacha", datetime := 28800360, value := 99 },
                     { municipio := "riohacha", datetime := 28800600, value := 6 },
                     { municipio := "riohacha", datetime := 28800840, value := 77 }],
          success := true } :=
  ⟨rfl, by decide, rfl, by decide, rfl⟩

/-- C4 (amended): the fetch start date is the calendar date of (now − 7 days)
when the prior dataset is empty, else the calendar date of one hour after its
latest timestamp; every merged row either comes from the prior dataset or has
a timestamp between midnight of that start date and the hour-floor of now,
both bounds inclusive — in particular the row stamped at the floor of the
current (in-progress) hour is not excluded. -/
theorem c4_amended (city : String) (sh eh now : Nat) (existing : DF)
    (fa : Nat → Nat → Except Unit (List (Nat × Int)))
    (ff : Except Unit (List (Nat × Int))) (out : PullOutcome)
    (hp : incremental_pull city sh eh now existing fa ff = Except.ok out) :
    (∀ r ∈ out.merged, r ∈ existing
      ∨ (pull_start_date existing now * 1440 ≤ r.datetime
          ∧ r.datetime ≤ hourFloorMin now))
    ∧ (existing = [] → pull_start_date existing now = dayOfMin (now - 7 * 1440))
    ∧ (∀ t, last_timestamp existing = some t →
        pull_start_date existing now = dayOfMin (t + 60)) := by
  refine ⟨?_, ?_, ?_⟩
  · intro r hr
    simp only [incremental_pull] at hp
    split at hp
    · exact absurd hp (by simp)
    · split at hp
      · exact absurd hp (by simp)
      · split at hp
        · obtain rfl := Except.ok.inj hp
          exact Or.inl (mem_of_mem_save_df hr)
        · obtain rfl := Except.ok.inj hp
          have hr' := mem_of_mem_save_df hr
          rcases List.mem_append.mp
            ((ddkl_sublist _).subset hr') with hre | hrf
          · exact Or.inl hre
          · right
            obtain ⟨q, hq, hqr⟩ :=
              List.mem_map.mp (List.mem_filter.mp hrf).1
            obtain ⟨hqall, hqb⟩ := List.mem_filter.mp hq
            have hdt : r.datetime = q.1 := by rw [← hqr]
            simp only [decide_eq_true_eq] at hqb
            exact ⟨hdt ▸ hqb.1, hdt ▸ hqb.2⟩
  · intro h
    rw [h]
    rfl
  · intro t ht
    unfold pull_start_date
    rw [ht]

/-- Witness for C4 (amended): the in-progress-hour row of the counterexample
input satisfies the amended bounds. -/
theorem c4_witness :
    ({ municipio := "riohacha", datetime := 28800840, value := 77 } : Row)
      ∈ [{ municipio := "riohacha", datetime := 28800360, value := 5 },
         { municipio := "riohacha", datetime := 28800600, value := 6 }]
    ∨ (pull_start_date
        [{ municipio := "riohacha", datetime := 28800360, value := 5 },
         { municipio := "riohacha", datetime := 28800600, value := 6 }]
        28800877 * 1440 ≤ 28800840 ∧ 28800840 ≤ hourFloorMin 28800877) :=
  (c4_amended "riohacha" 0 23 28800877
      [{ municipio := "riohacha", datetime := 28800360, value := 5 },
       { municipio := "riohacha", datetime := 28800600, value := 6 }]
      (fun _ _ => Except.ok [])
      (Except.ok [(28800360, 99), (28800840, 77)])
      { city := "riohacha",
        new_rows := 1,
        file := "data/raw/open_meteo_riohacha.csv",
        merged := [{ municipio := "riohacha", datetime := 28800360, value := 99 },
                   { municipio := "riohacha", datetime := 28800600, value := 6 },
                   { municipio := "riohacha", datetime := 28800840, value := 77 }],
        success := true }
      rfl).1
    { municipio := "riohacha", datetime := 28800840, value := 77 } (by decide)

/-! ### Claim C5 -/

/-- C5 counterexample: with the latest stored timestamp at 05:00 yesterday,
the requested start date equals yesterday — on/after yesterday in the claim's
words — yet the archive fetch is still issued (guard `start_date <= yesterday`
of line 190 holds), observably: an erroring archive oracle makes
`incremental_pull` fail. -/
theorem c5_counterexample :
    pull_start_date [{ municipio := "riohacha", datetime := 28798860, value := 1 }]
        28800877 = dayOfMin (28800877 - 1440)
    ∧ archive_requested
        [{ municipio := "riohacha", datetime := 28798860, value := 1 }]
        28800877 = true
    ∧ incremental_pull "riohacha" 0 23 28800877
        [{ municipio := "riohacha", datetime := 28798860, value := 1 }]
        (fun _ _ => Except.error ()) (Except.ok [])
      = Except.error () :=
  ⟨rfl, rfl, rfl⟩

/-- C5 (amended): the historical-archive fetch is skipped iff the requested
start date is strictly after yesterday (equivalently, on/after today); when it
is skipped, the result of `incremental_pull` does not depend on the archive
oracle at all. -/
theorem c5_amended (existing : DF) (now : Nat) :
    (archive_requested existing now = false
      ↔ dayOfMin (now - 1440) < pull_start_date existing now)
    ∧ (archive_requested existing now = false →
        ∀ (city : String) (sh eh : Nat)
          (fa fa' : Nat → Nat → Except Unit (List (Nat × Int)))
          (ff : Except Unit (List (Nat × Int))),
          incremental_pull city sh eh now existing fa ff
            = incremental_pull city sh eh now existing fa' ff) := by
  constructor
  · simp [archive_requested, Nat.not_le]
  · intro h city sh eh fa fa' ff
    have hn : ¬ pull_start_date existing now ≤ dayOfMin (now - 1440) := by
      simpa [archive_requested] using h
    simp only [incremental_pull, if_neg hn]

/-- Witness for C5 (amended): with the latest stored timestamp already on
today's date the archive fetch is skipped, so a healthy and a raising archive
oracle produce identical results. -/
theorem c5_witness :
    incremental_pull "riohacha" 0 23 28800877
        [{ municipio := "riohacha", datetime := 28800000, value := 1 }]
        (fun _ _ => Except.ok [(1, 1)]) (Except.ok [])
      = incremental_pull "riohacha" 0 23 28800877
        [{ municipio := "riohacha", datetime := 28800000, value := 1 }]
        (fun _ _ => Except.error ()) (Except.ok []) :=
  (c5_amended [{ municipio := "riohacha", datetime := 28800000, value := 1 }]
      28800877).2 rfl "riohacha" 0 23
    (fun _ _ => Except.ok [(1, 1)]) (fun _ _ => Except.error ()) (Except.ok [])

/-! ### Claim C6 -/

theorem mentions_other_of_mem {cur q m : String} (hm : m ∈ MUNICIPIOS)
    (hne : pyLowerStr m ≠ pyLowerStr cur)
    (hocc : occursStr (pyLowerStr m) (pyLowerStr q) = true) :
    mentions_other cur q = true := by
  rw [mentions_other, List.any_eq_true]
  refine ⟨m, hm, ?_⟩
  rw [Bool.and_eq_true, Bool.not_eq_true', beq_eq_false_iff_ne]
  exact ⟨hne, hocc⟩

/-- C6 counterexample: bound to `riohacha`, the message `"clima en maicaó"`
mentions `maicao` under accent-insensitive matching and does not mention
`riohacha`, yet the switch detector (a plain lowercase substring test) does
not fire: the session is not reset and the turn is processed as a normal
bound-municipality request. -/
theorem c6_counterexample :
    occursStr (strip_accents_lower "maicao")
        (strip_accents_lower "clima en maicaó") = true
    ∧ occursStr "riohacha" (strip_accents_lower "clima en maicaó") = false
    ∧ handle_message
        { now := 0,
          routerReply := "x",
          fetchWind := Except.ok [],
          csvOf := fun _ => none,
          summaryOf := fun _ => "" }
        { initUserState with current_municipio := some "riohacha" }
        "clima en maicaó"
      = ({ initUserState with current_municipio := some "riohacha" },
         Outcome.municipioHandled (MuniOutcome.subagentCalled "riohacha")) :=
  ⟨rfl, rfl, rfl⟩

/-- C6 (amended): while municipality `cur` is bound, a nonempty message in
which some other known municipality name occurs as a case-insensitive (plain
lowercase, accent-sensitive) substring resets the session to unbound, replies
with the fixed re-selection prompt, and performs no subagent or analysis
processing in that turn. -/
theorem c6_amended (env : Env) (st : UserState) (cur m text : String)
    (hcur : st.current_municipio = some cur)
    (hm : m ∈ MUNICIPIOS)
    (hne : pyLowerStr m ≠ pyLowerStr cur)
    (hocc : occursStr (pyLowerStr m) (pyLowerStr (pyStrip text)) = true)
    (hq : pyStrip text ≠ "") :
    handle_message env st text
      = (reset_user_state st,
         Outcome.switchPrompt
           "🔄 Detectado cambio de municipio. Redirigiendo al orquestador...")
    ∧ (reset_user_state st).current_municipio = none := by
  have hmo : mentions_other cur (pyStrip text) = true :=
    mentions_other_of_mem hm hne hocc
  constructor
  · simp [handle_message, hcur, hq, hmo]
  · rfl

/-- Witness for C6 (amended): a message plainly mentioning `maicao` while
bound to `riohacha` resets the session. -/
theorem c6_witness :
    handle_message
      { now := 0,
        routerReply := "x",
        fetchWind := Except.ok [],
        csvOf := fun _ => none,
        summaryOf := fun _ => "" }
      { initUserState with current_municipio := some "riohacha" }
      "y en maicao?"
      = (reset_user_state
          { initUserState with current_municipio := some "riohacha" },
         Outcome.switchPrompt
           "🔄 Detectado cambio de municipio. Redirigiendo al orquestador...")
    ∧ (reset_user_state
        { initUserState with current_municipio := some "riohacha" }).current_municipio
      = none :=
  c6_amended
    { now := 0,
      routerReply := "x",
      fetchWind := Except.ok [],
      csvOf := fun _ => none,
      summaryOf := fun _ => "" }
    { initUserState with current_municipio := some "riohacha" }
    "riohacha" "maicao" "y en maicao?"
    rfl (by decide) (by decide) (by decide) (by decide)

/-! ### Claim C7 -/

/-- C7 counterexample: in the Unbound state a router reply of `"general"` is
relayed verbatim as `"🤖 Bot: general"` by the Telegram handler — not replaced
by a clarification listing example municipalities (the reply does not even
contain a municipality name); the session does stay Unbound. -/
theorem c7_counterexample :
    handle_message
      { now := 0,
        routerReply := "general",
        fetchWind := Except.ok [],
        csvOf := fun _ => none,
        summaryOf := fun _ => "" }
      initUserState "¿qué clima hace hoy?"
      = (initUserState,
         Outcome.routerHandled (RouterOutcome.botRelay "🤖 Bot: general"))
    ∧ occursStr "riohacha" "🤖 Bot: general" = false :=
  ⟨rfl, rfl⟩

set_option maxRecDepth 8192 in
/-- C7 (amended): when the router's normalized reply equals `"general"`, the
Telegram handler keeps the session Unbound but relays the router text
verbatim (`"🤖 Bot: general"`); only the CLI multiagent's `"general"` branch
replies with the clarification listing every municipality. -/
theorem c7_amended :
    (∀ (env : Env) (st : UserState) (text : String),
      st.current_municipio = none → pyStrip text ≠ "" →
      telegram_route env.routerReply = "general" →
      handle_message env st text
        = (st, Outcome.routerHandled (RouterOutcome.botRelay "🤖 Bot: general")))
    ∧ (∀ m ∈ MUNICIPIOS, occursStr m cli_general_reply = true) := by
  constructor
  · intro env st text hst hq hroute
    have hr : handle_router_request env st
        = (st, RouterOutcome.botRelay ("🤖 Bot: " ++ "general")) := by
      simp only [handle_router_request, hroute]
      rw [if_neg (by decide : ¬ ("general" : String) ∈ MUNICIPIOS)]
    simp [handle_message, hst, hq, hr]
  · decide

set_option maxRecDepth 8192 in
/-- Witness for C7 (amended) at a concrete router reply needing trimming and
lowercasing. -/
theorem c7_witness :
    handle_message
      { now := 0,
        routerReply := "  General ",
        fetchWind := Except.ok [],
        csvOf := fun _ => none,
        summaryOf := fun _ => "" }
      initUserState "clima"
      = (initUserState,
         Outcome.routerHandled (RouterOutcome.botRelay "🤖 Bot: general"))
    ∧ occursStr "riohacha" cli_general_reply = true :=
  ⟨c7_amended.1
      { now := 0,
        routerReply := "  General ",
        fetchWind := Except.ok [],
        csvOf := fun _ => none,
        summaryOf := fun _ => "" }
      initUserState "clima" rfl (by decide) (by decide),
   c7_amended.2 "riohacha" (by decide)⟩

/-! ### Claim C8 -/

theorem populate_preserves_municipio (env : Env) (st : UserState)
    (result : PyDict) :
    (populate_from_download env st result).current_municipio
      = st.current_municipio := by
  simp only [populate_from_download]
  split
  · split
    · unfold create_pandas_agent_for_user
      split <;> rfl
    · rfl
  · rfl

/-- C8 counterexample: the accent variant `"ríohacha"` is left unchanged by
the Telegram normalization (`.strip().lower()` only), is not a known
municipality there, and is relayed as conversational text instead of binding
`riohacha` — while the CLI's `strip_accents_lower` maps it to `riohacha` and
its classifier recognizes it.  The normalizations are not the same
"throughout". -/
theorem c8_counterexample :
    telegram_route "ríohacha" = "ríohacha"
    ∧ "ríohacha" ∉ MUNICIPIOS
    ∧ strip_accents_lower "ríohacha" = "riohacha"
    ∧ handle_message
        { now := 0,
          routerReply := "ríohacha",
          fetchWind := Except.ok [],
          csvOf := fun _ => none,
          summaryOf := fun _ => "" }
        initUserState "clima"
      = (initUserState,
         Outcome.routerHandled (RouterOutcome.botRelay "🤖 Bot: ríohacha"))
    ∧ cli_classify "ríohacha" = RouterDecision.municipality "riohacha" :=
  ⟨rfl, by decide, rfl, rfl, rfl⟩

/-- C8 (amended): case variants normalize consistently — a router reply whose
trim+lowercase equals a known municipality binds that municipality in the
Telegram handler, a message containing the lowercase name triggers switch
detection, and any string whose CLI normalization (trim, lowercase, accent
fold) equals the name is classified as that municipality by the CLI
multiagent.  Accent folding, however, exists only in the CLI path. -/
theorem c8_amended :
    (∀ (v m : String) (env : Env) (st : UserState) (text : String),
      m ∈ MUNICIPIOS → telegram_route v = m → env.routerReply = v →
      st.current_municipio = none → pyStrip text ≠ "" →
      (handle_message env st text).1.current_municipio = some m
      ∧ (handle_message env st text).2
          = Outcome.routerHandled (RouterOutcome.subagentCalled m))
    ∧ (∀ (cur q m : String), m ∈ MUNICIPIOS → pyLowerStr m ≠ pyLowerStr cur →
        occursStr (pyLowerStr m) (pyLowerStr q) = true →
        mentions_other cur q = true)
    ∧ (∀ (v m : String), m ∈ MUNICIPIOS → cli_route_norm v = m →
        cli_classify v = RouterDecision.municipality m) := by
  refine ⟨?_, ?_, ?_⟩
  · intro v m env st text hm hroute henv hst hq
    have hr : handle_router_request env st
        = (populate_from_download env { st with current_municipio := some m }
            (download_single_city (downloader_window env.now) m none
              env.fetchWind),
           RouterOutcome.subagentCalled m) := by
      simp only [handle_router_request, henv, hroute]
      rw [if_pos hm, if_pos hm]
    have hmsg : handle_message env st text
        = ((handle_router_request env st).1,
           Outcome.routerHandled (handle_router_request env st).2) := by
      simp [handle_message, hst, hq]
    rw [hmsg, hr]
    exact ⟨(populate_preserves_municipio _ _ _).trans rfl, rfl⟩
  · intro cur q m hm hne hocc
    exact mentions_other_of_mem hm hne hocc
  · intro v m hm hnorm
    fin_cases hm <;> (simp only [cli_classify]; rw [hnorm]; decide)

/-- Witness for C8 (amended): the case variant `" RIOHACHA "` binds
`riohacha` in the Telegram router path, and `"Ríohacha"` is classified as
`riohacha` by the CLI. -/
theorem c8_witness :
    ((handle_message
        { now := 0,
          routerReply := " RIOHACHA ",
          fetchWind := Except.ok [],
          csvOf := fun _ => none,
          summaryOf := fun _ => "" }
        initUserState "clima").1.current_municipio = some "riohacha"
      ∧ (handle_message
          { now := 0,
            routerReply := " RIOHACHA ",
            fetchWind := Except.ok [],
            csvOf := fun _ => none,
            summaryOf := fun _ => "" }
          initUserState "clima").2
        = Outcome.routerHandled (RouterOutcome.subagentCalled "riohacha"))
    ∧ cli_classify "Ríohacha" = RouterDecision.municipality "riohacha" :=
  ⟨c8_amended.1 " RIOHACHA " "riohacha"
      { now := 0,
        routerReply := " RIOHACHA ",
        fetchWind := Except.ok [],
        csvOf := fun _ => none,
        summaryOf := fun _ => "" }
      initUserState "clima" (by decide) (by decide) rfl rfl (by decide),
   c8_amended.2.2 "Ríohacha" "riohacha" (by decide) rfl⟩

/-! ### Claim C1 -/

/-- C1: in the Unbound router path with decision `riohacha` and a healthy
weather fetch (one valid hourly row), the turn ends bound to `riohacha` but
with dataset path, summary, and in-memory dataframe still unset: the
downloader's coordinate table is keyed `"Riohacha"` so the lowercase lookup
fails (`success = false`), and even a successful download result exposes the
saved path under `"filepath"` while the handler tests `"file_path"`, a key
that never exists — so the populate branch of lines 486–500 can never run. -/
theorem c1_session_not_populated :
    handle_message
      { now := 29030400,
        routerReply := "riohacha",
        fetchWind := Except.ok [(28800000, 42)],
        csvOf := fun _ => some [],
        summaryOf := fun _ => "resumen" }
      initUserState "¿cómo está el viento en riohacha?"
      = ({ initUserState with current_municipio := some "riohacha" },
         Outcome.routerHandled (RouterOutcome.subagentCalled "riohacha"))
    ∧ download_single_city (downloader_window 29030400) "riohacha" none
        (Except.ok [(28800000, 42)])
      = [("data", DVal.vDF []), ("filepath", DVal.vStr ""),
         ("success", DVal.vBool false)]
    ∧ truthy (dictGet (download_single_city (downloader_window 29030400)
        "Riohacha" none (Except.ok [(28800000, 42)])) "success") = true
    ∧ dictGet (download_single_city (downloader_window 29030400)
        "Riohacha" none (Except.ok [(28800000, 42)])) "file_path" = none :=
  ⟨rfl, rfl, rfl, rfl⟩

/-! ### Claim C9 -/

theorem isPrefixOf_trans {p q r : List Char} (h1 : p.isPrefixOf q = true)
    (h2 : q.isPrefixOf r = true) : p.isPrefixOf r = true := by
  simp only [ List.isPrefixOf_iff_prefix] at h1 h2 ⊢
  exact h1.trans h2

theorem isPrefixOf_self_append (l y : List Char) :
    l.isPrefixOf (l ++ y) = true := by
  simp [ List.isPrefixOf_iff_prefix]

theorem occursL_cons_false {pat : List Char} {c : Char} {t : List Char}
    (h : occursL pat (c :: t) = false) :
    pat.isPrefixOf (c :: t) = false ∧ occursL pat t = false := by
  cases hp : pat.isPrefixOf (c :: t) <;> cases ho : occursL pat t <;>
    simp_all [occursL]

theorem occursL_of_isPrefixOf {pat l : List Char}
    (h : pat.isPrefixOf l = true) : occursL pat l = true := by
  cases l with
  | nil => simpa [occursL] using h
  | cons c t => simp [occursL, h]

theorem occursL_append_of_isPrefixOf {pat y : List Char} (x : List Char)
    (h : pat.isPrefixOf y = true) : occursL pat (x ++ y) = true := by
  induction x with
  | nil => simpa using occursL_of_isPrefixOf h
  | cons c t ih => simp [occursL, ih]

theorem fenceL_eq : fenceL = [backtick, backtick, backtick] := rfl

theorem scanFence_none_of_no_fence {tag : List Char}
    (htag : fenceL.isPrefixOf tag = true) :
    ∀ {s : List Char}, occursL fenceL s = false → scanFence tag s = none := by
  intro s
  induction s with
  | nil => intro _; rfl
  | cons c t ih =>
    intro h
    obtain ⟨h1, h2⟩ := occursL_cons_false h
    rw [scanFence, if_neg]
    · exact ih h2
    · rintro ⟨hg1, _⟩
      have hocc := occursL_of_isPrefixOf (isPrefixOf_trans htag hg1)
      rw [h] at hocc
      exact Bool.false_ne_true hocc

theorem scanFence_skip {tag : List Char} (hhead : tag.head? = some backtick)
    (pre : List Char) (hpre : ∀ c ∈ pre, c ≠ backtick) (rest : List Char) :
    scanFence tag (pre ++ rest) = scanFence tag rest := by
  induction pre with
  | nil => rfl
  | cons c p ih =>
    have hc : c ≠ backtick := hpre c (List.mem_cons_self _ _)
    rw [List.cons_append, scanFence, if_neg]
    · exact ih (fun d hd => hpre d (List.mem_cons_of_mem _ hd))
    · rintro ⟨hg1, -⟩
      cases tag with
      | nil => simp at hhead
      | cons t0 tt =>
        obtain rfl : t0 = backtick := by simpa using hhead
        simp only [List.isPrefixOf, Bool.and_eq_true, beq_iff_eq] at hg1
        exact hc hg1.1.symm

theorem firstOccIdx_zero {pat l : List Char} (h : pat.isPrefixOf l = true)
    (hne : l ≠ []) : firstOccIdx pat l = 0 := by
  cases l with
  | nil => exact absurd rfl hne
  | cons c t => rw [firstOccIdx, if_pos h]

theorem firstOccIdx_append_no_bt {inner : List Char}
    (hin : ∀ c ∈ inner, c ≠ backtick) (post : List Char) :
    firstOccIdx fenceL (inner ++ (fenceL ++ post)) = inner.length := by
  induction inner with
  | nil =>
    rw [List.nil_append,
      firstOccIdx_zero (isPrefixOf_self_append fenceL post) (by simp [fenceL_eq])]
    rfl
  | cons c t ih =>
    have hc : c ≠ backtick := hin c (List.mem_cons_self _ _)
    have hneg : ¬ fenceL.isPrefixOf (c :: (t ++ (fenceL ++ post))) = true := by
      intro hg
      rw [fenceL_eq] at hg
      simp only [List.isPrefixOf, Bool.and_eq_true, beq_iff_eq] at hg
      exact hc hg.1.symm
    rw [List.cons_append, firstOccIdx, if_neg hneg,
      ih (fun d hd => hin d (List.mem_cons_of_mem _ hd))]
    rfl

theorem scanFence_at_tag (tag x : List Char) (htag : tag ≠ [])
    (hocc : occursL fenceL x = true) :
    scanFence tag (tag ++ x)
      = some (pyStripL (x.take (firstOccIdx fenceL x))) := by
  cases tag with
  | nil => exact absurd rfl htag
  | cons t0 tt =>
    rw [List.cons_append, scanFence, if_pos]
    · rw [← List.cons_append, List.drop_left]
    · constructor
      · rw [← List.cons_append]
        exact isPrefixOf_self_append _ _
      · rw [← List.cons_append, List.drop_left]
        exact hocc

set_option maxRecDepth 8192 in
/-- C9: the code-block extractor returns the empty string for every response
without a fenced block, and for a response consisting of a single
```python-tagged fenced block whose (stripped) code references a plotting
library it returns exactly that inner code with the fences (and surrounding
whitespace, which the source `.strip()`s) removed — for any
backtick-free prefix, inner code, and suffix. -/
theorem c9_extract_code :
    (∀ response : String, occursL fenceL response.data = false →
      extract_code response = "")
    ∧ (∀ pre inner post : List Char,
        (∀ c ∈ pre, c ≠ backtick) → (∀ c ∈ inner, c ≠ backtick) →
        hasLib (pyStripL inner) = true →
        extract_code (String.mk (pre ++ pyTagL ++ (inner ++ (fenceL ++ post))))
          = String.mk (pyStripL inner)) := by
  constructor
  · intro response h
    have h1 : scanFence pyTagL response.data = none :=
      scanFence_none_of_no_fence (by decide) h
    have h2 : scanFence fenceL response.data = none :=
      scanFence_none_of_no_fence (by decide) h
    simp [extract_code, h1, h2]
  · intro pre inner post hpre hin hlib
    have hx : occursL fenceL (inner ++ (fenceL ++ post)) = true :=
      occursL_append_of_isPrefixOf inner (isPrefixOf_self_append fenceL post)
    have hs : scanFence pyTagL (pre ++ (pyTagL ++ (inner ++ (fenceL ++ post))))
        = some (pyStripL inner) := by
      rw [@scanFence_skip pyTagL rfl pre hpre
          (pyTagL ++ (inner ++ (fenceL ++ post))),
        scanFence_at_tag _ _ (by decide) hx,
        firstOccIdx_append_no_bt hin post, List.take_left]
    simp only [extract_code]
    rw [List.append_assoc, hs]
    simp [hlib]

set_option maxRecDepth 8192 in
/-- Witness for C9: a fence-free response yields the empty string, and a
response with one python-tagged block yields exactly its code. -/
theorem c9_witness :
    extract_code "sin bloques de código" = ""
    ∧ extract_code "Antes ```python\nplt.plot(df)\n``` después"
      = "plt.plot(df)" := by
  constructor
  · exact c9_extract_code.1 "sin bloques de código" (by decide)
  · have h := c9_extract_code.2 "Antes ".data "\nplt.plot(df)\n".data
      " después".data (by decide) (by decide) (by decide)
    have he : ("Antes ```python\nplt.plot(df)\n``` después" : String)
        = String.mk ("Antes ".data ++ pyTagL
            ++ ("\nplt.plot(df)\n".data ++ (fenceL ++ " después".data))) := by
      decide
    rw [he, h]
    decide

/-! ### Claim C10 -/

/-- C10: in the bound-municipality download path the hour window is computed
from the clock hours of now and now − 365 days, which coincide (the naive
datetime subtraction preserves the time of day), so the downloader's inclusive
hour filter keeps only rows whose hour equals the current clock hour — and for
an hourly series with distinct timestamps the resulting dataset has at most
one observation per calendar day (all retained dates are distinct). -/
theorem c10_hour_window (now : Nat) (hnow : 365 * 1440 ≤ now) :
    ((downloader_window now).start_hour = (downloader_window now).end_hour
      ∧ (downloader_window now).end_hour = hourOfMin now)
    ∧ ∀ (raw : List (Nat × Int)) (municipio : String),
        (∀ p ∈ raw, p.1 % 60 = 0) → (raw.map Prod.fst).Nodup →
        (∀ r ∈ fetch_wind_data_only (downloader_window now) municipio
            (Except.ok raw), hourOf r = hourOfMin now)
        ∧ ((fetch_wind_data_only (downloader_window now) municipio
            (Except.ok raw)).map dateOf).Nodup := by
  have hh : hourOfMin (now - 365 * 1440) = hourOfMin now := by
    unfold hourOfMin
    omega
  constructor
  · exact ⟨by simp [downloader_window, hh], rfl⟩
  · intro raw municipio hhr hnd
    have hfw : fetch_wind_data_only (downloader_window now) municipio
          (Except.ok raw)
        = filter_hours (mk_rows raw municipio) (hourOfMin now)
            (hourOfMin now) := by
      simp [fetch_wind_data_only, downloader_window, hh]
    have hmin : ∀ r ∈ mk_rows raw municipio, r.datetime % 60 = 0 := by
      intro r hr
      obtain ⟨p, hp, rfl⟩ := List.mem_map.mp hr
      exact hhr p hp
    have hmapeq : (mk_rows raw municipio).map (fun r => r.datetime)
        = raw.map Prod.fst := by
      simp [mk_rows, List.map_map]
    have hnd' : (mk_rows raw municipio).Pairwise
        (fun a b => a.datetime ≠ b.datetime) := by
      rw [← hmapeq] at hnd
      exact List.pairwise_map.mp hnd
    constructor
    · intro r hr
      rw [hfw] at hr
      obtain ⟨hm, hcond⟩ := List.mem_filter.mp hr
      simp only [decide_eq_true_eq] at hcond
      omega
    · rw [hfw]
      have hfp : (filter_hours (mk_rows raw municipio) (hourOfMin now)
          (hourOfMin now)).Pairwise (fun a b => a.datetime ≠ b.datetime) :=
        List.Pairwise.sublist (List.filter_sublist _) hnd'
      have key : (filter_hours (mk_rows raw municipio) (hourOfMin now)
          (hourOfMin now)).Pairwise (fun a b => dateOf a ≠ dateOf b) := by
        refine List.Pairwise.imp_of_mem ?_ hfp
        intro a b ha hb hne hdeq
        apply hne
        obtain ⟨hma, hca⟩ := List.mem_filter.mp ha
        obtain ⟨hmb, hcb⟩ := List.mem_filter.mp hb
        have ha0 : a.datetime % 60 = 0 := hmin a hma
        have hb0 : b.datetime % 60 = 0 := hmin b hmb
        simp only [decide_eq_true_eq] at hca hcb
        unfold hourOf hourOfMin at hca hcb
        unfold dateOf dayOfMin at hdeq
        omega
      show (List.map dateOf _).Pairwise (fun a b => a ≠ b)
      rw [List.pairwise_map]
      exact key

/-- Witness for C10 at a concrete clock instant and a two-row hourly series. -/
theorem c10_witness :
    ((downloader_window 29030400).start_hour
        = (downloader_window 29030400).end_hour
      ∧ (downloader_window 29030400).end_hour = hourOfMin 29030400)
    ∧ ((fetch_wind_data_only (downloader_window 29030400) "Riohacha"
        (Except.ok [(28800000, 42), (28800060, 7)])).map dateOf).Nodup :=
  ⟨(c10_hour_window 29030400 (by decide)).1,
   ((c10_hour_window 29030400 (by decide)).2 [(28800000, 42), (28800060, 7)]
      "Riohacha" (by decide) (by decide)).2⟩
